import Mathlib

/-!
Verification development for the ComptaFlow bank-statement extraction core
(`parsers.py`, `mistral_parser.py`, `ocr_utils.py`).

The Python code is shallowly embedded: pure string/regex manipulation is
translated into executable Lean functions over `String`/`List Char`, amounts
are modelled as exact rationals (`ℚ`, Python `float` rounding is abstracted —
all amounts in play are two-decimal values), and the external effectful
backends (pdfplumber page extraction, Tesseract OCR, the Mistral chat API)
are modelled as explicit oracle arguments of type `Except`: `.ok` is a normal
return, `.error` is a raised exception.

Python-specific regex matching semantics (leftmost match, greedy quantifiers
with backtracking) are hand-compiled per pattern into dedicated matchers;
each matcher's doc comment names the pattern it implements.
-/

/-! ## Basic Python string helpers -/

/-- The characters matched by Python's `\s` (ASCII range; the rare non-ASCII
whitespace codepoints are not produced by any input in this development). -/
def isPySpace (c : Char) : Bool :=
  c == ' ' || c == '\t' || c == '\n' || c == '\r' || c == Char.ofNat 11 || c == Char.ofNat 12

/-- Python `str.strip()` on a character list: drop `\s`-characters at both ends. -/
def pyStripL (l : List Char) : List Char :=
  ((l.dropWhile isPySpace).reverse.dropWhile isPySpace).reverse

/-- Python `str.strip()`. -/
def pyStrip (s : String) : String := String.mk (pyStripL s.toList)

/-- Python `str.upper()` restricted to the Latin-1 letters that occur in this code
base (ASCII letters and the accented range `à`–`þ` except `÷`).  Python's
full case mapping additionally handles codepoints (`ß`, `ÿ`, …) that never
make a difference for the ASCII keyword searches performed here. -/
def pyUpperChar (c : Char) : Char :=
  if 'a' ≤ c ∧ c ≤ 'z' then Char.ofNat (c.toNat - 32)
  else if 0xE0 ≤ c.toNat ∧ c.toNat ≤ 0xFE ∧ c.toNat ≠ 0xF7 then Char.ofNat (c.toNat - 32)
  else c

/-- Python `str.upper()`. -/
def pyUpper (s : String) : String := String.mk (s.toList.map pyUpperChar)

/-- Boolean prefix test on character lists. -/
def leadsWith : List Char → List Char → Bool
  | [], _ => true
  | _ :: _, [] => false
  | a :: p, b :: h => a == b && leadsWith p h

/-- Boolean substring (contiguous) test on character lists. -/
def occursWithin (p : List Char) : List Char → Bool
  | [] => p.isEmpty
  | b :: t => leadsWith p (b :: t) || occursWithin p t

/-- Python's `pat in hay` substring test. -/
def containsStr (hay pat : String) : Bool := occursWithin pat.toList hay.toList

/-- Python `int()` of a decimal digit string (as a character list). -/
def strToNatD (l : List Char) : Nat := l.foldl (fun acc c => 10 * acc + (c.toNat - 48)) 0

/-- Python `float("<int>,<frac>".replace(',', '.'))` for a two-digit fraction, as an
exact rational (`mkRat` keeps all definitions kernel-computable). -/
def ratOfParts (ip fp : List Char) : ℚ := mkRat (100 * strToNatD ip + strToNatD fp) 100

/-- Python `str.zfill(2)`. -/
def zfill2 (s : String) : String :=
  if s.length < 2 then String.mk (List.replicate (2 - s.length) '0') ++ s else s

/-- Python `str.split(sep)` for a one-character separator (e.g.
`"a\nb\n".split('\n') == ["a", "b", ""]`). -/
def splitOnChar (sep : Char) : List Char → List (List Char)
  | [] => [[]]
  | c :: t =>
    if c = sep then [] :: splitOnChar sep t
    else
      match splitOnChar sep t with
      | r :: rs => (c :: r) :: rs
      | [] => [[c]]

/-! ## Data model

A transaction dict `{'Date': …, 'Libellé': …, 'Montant': …}` from
`parsers.py` / `mistral_parser.py`. -/

structure Transaction where
  date : String
  libelle : String
  montant : ℚ
deriving Repr, DecidableEq

/-! ## `extract_ca_transactions` (parsers.py lines 107–143)

Format Crédit Agricole: `JJ.MM COMMERCE LIEU MONTANT`. -/

/-- The per-line stop keywords of the CA parser. -/
def caSkip : List String := ["TOTAL", "Date", "Montant", "Commerce", "Page"]

/-- Attempt of pattern `(\d{1,2}\.\d{2})` at the head of the list: returns
(match length, day digits, month digits).  The `{1,2}` quantifier is greedy:
two digits are preferred. -/
def caDateAt : List Char → Option (Nat × List Char × List Char)
  | a :: b :: c :: d :: e :: _ =>
    if a.isDigit && b.isDigit && c == '.' && d.isDigit && e.isDigit then some (5, [a, b], [d, e])
    else if a.isDigit && b == '.' && c.isDigit && d.isDigit then some (4, [a], [c, d])
    else none
  | [a, b, c, d] =>
    if a.isDigit && b == '.' && c.isDigit && d.isDigit then some (4, [a], [c, d]) else none
  | _ => none

/-- Python `re.search(r'(\d{1,2}\.\d{2})', line)`: leftmost match; returns
(start, end, day digits, month digits).  `i` is the index of the head of `l`
in the original line. -/
def caDateSearch : List Char → Nat → Option (Nat × Nat × List Char × List Char)
  | [], _ => none
  | c :: t, i =>
    match caDateAt (c :: t) with
    | some (len, j, m) => some (i, i + len, j, m)
    | none => caDateSearch t (i + 1)

/-- Core of pattern `(\d{1,5}),(\d{2})` at the head of the list (no sign):
group 1 is the digit run before the comma.  A digit run longer than 5 cannot
match here (backtracking cannot shorten the run below its maximal length
because the character after a shorter prefix is still a digit, not `,`). -/
def caMontCore (l : List Char) : Option (Nat × List Char) :=
  let ds := l.takeWhile Char.isDigit
  if 1 ≤ ds.length ∧ ds.length ≤ 5 then
    match l.drop ds.length with
    | ',' :: x :: y :: _ =>
      if x.isDigit && y.isDigit then some (ds.length + 3, ds) else none
    | _ => none
  else none

/-- Attempt of pattern `-?(\d{1,5}),(\d{2})` at the head of the list. -/
def caMontAt : List Char → Option (Nat × List Char)
  | '-' :: rest => (caMontCore rest).map (fun g => (g.1 + 1, g.2))
  | l => caMontCore l

/-- Python `re.search(r'-?(\d{1,5}),(\d{2})', line)`: leftmost match; returns
(match start, group-1 digits). -/
def caMontSearch : List Char → Nat → Option (Nat × List Char)
  | [], _ => none
  | c :: t, i =>
    match caMontAt (c :: t) with
    | some (_, g) => some (i, g)
    | none => caMontSearch t (i + 1)

/-- One iteration of the CA parser's per-line loop body.  Note
`montant_match.group(1)` is only the digit run *before* the comma, so the
assigned amount is the negated integer part of the printed amount. -/
def caLine (line : String) : Option Transaction :=
  if caSkip.any (fun k => containsStr line k) then none
  else
    let l := line.toList
    match caDateSearch l 0, caMontSearch l 0 with
    | some (_, dEnd, jour, mois), some (mStart, g1) =>
      let middle := pyStrip (String.mk ((l.take mStart).drop dEnd))
      if middle = "" then none
      else some ⟨String.mk jour ++ "/" ++ String.mk mois ++ "/2025", middle,
                 -(strToNatD g1 : ℚ)⟩
    | _, _ => none

/-- Python `extract_ca_transactions` (parsers.py lines 107–143). -/
def extract_ca_transactions (lines : List String) : List Transaction :=
  lines.filterMap caLine

/-! ## `extract_bp_transactions` (parsers.py lines 146–179)

Format Banque Populaire: `JJMMYY COMMERCE ADRESSE MONTANT`. -/

/-- The per-line stop keywords of the BP parser. -/
def bpSkip : List String := ["DATE", "NOM", "MONTANT", "Page", "TOTAL"]

/-- Python `re.match(r'(\d{1,2})(\d{2})(\d{2})', line.strip())`: anchored at the
start; greedy `{1,2}` takes two digits when six digits are available,
otherwise backtracks to one digit over five.  Returns
(match end, day digits, month digits, two-digit year digits). -/
def bpDateAt : List Char → Option (Nat × List Char × List Char × List Char)
  | a :: b :: c :: d :: e :: f :: _ =>
    if a.isDigit && b.isDigit && c.isDigit && d.isDigit && e.isDigit && f.isDigit then
      some (6, [a, b], [c, d], [e, f])
    else if a.isDigit && b.isDigit && c.isDigit && d.isDigit && e.isDigit then
      some (5, [a], [b, c], [d, e])
    else none
  | [a, b, c, d, e] =>
    if a.isDigit && b.isDigit && c.isDigit && d.isDigit && e.isDigit then
      some (5, [a], [b, c], [d, e])
    else none
  | _ => none

/-- Attempt of pattern `(\d+),(\d{2})` at the head of the list; group 1 is
the (maximal) digit run before the comma. -/
def bpMontAt (l : List Char) : Option (Nat × List Char) :=
  let ds := l.takeWhile Char.isDigit
  if 1 ≤ ds.length then
    match l.drop ds.length with
    | ',' :: x :: y :: _ =>
      if x.isDigit && y.isDigit then some (ds.length + 3, ds) else none
    | _ => none
  else none

/-- Python `re.search(r'(\d+),(\d{2})', s)`: leftmost match; returns
(match start, group-1 digits). -/
def bpMontSearch : List Char → Nat → Option (Nat × List Char)
  | [], _ => none
  | c :: t, i =>
    match bpMontAt (c :: t) with
    | some (_, g) => some (i, g)
    | none => bpMontSearch t (i + 1)

/-- One iteration of the BP parser's per-line loop body.  As in the CA
parser, `montant_match.group(1)` drops the cents; the derived label is not
checked for emptiness here. -/
def bpLine (line : String) : Option Transaction :=
  if bpSkip.any (fun k => containsStr line k) then none
  else
    let ls := (pyStrip line).toList
    match bpDateAt ls, bpMontSearch ls 0 with
    | some (dEnd, j, m, y), some (mStart, g1) =>
      let middle := pyStrip (String.mk ((ls.take mStart).drop dEnd))
      some ⟨String.mk j ++ "/" ++ String.mk m ++ "/20" ++ String.mk y, middle,
            -(strToNatD g1 : ℚ)⟩
    | _, _ => none

/-- Python `extract_bp_transactions` (parsers.py lines 146–179). -/
def extract_bp_transactions (lines : List String) : List Transaction :=
  lines.filterMap bpLine

/-! ## `extract_lcl_transactions` (parsers.py lines 182–354)

Format LCL — `PAIEMENTS PAR CARTE` section with `LE JJ/MM` anchors. -/

/-- The month dictionary `mois_dict`. -/
def moisDict (m : String) : Option String :=
  if m = "JANVIER" then some "01"
  else if m = "FÉVRIER" ∨ m = "FEVRIER" then some "02"
  else if m = "MARS" then some "03"
  else if m = "AVRIL" then some "04"
  else if m = "MAI" then some "05"
  else if m = "JUIN" then some "06"
  else if m = "JUILLET" then some "07"
  else if m = "AOÛT" ∨ m = "AOUT" then some "08"
  else if m = "SEPTEMBRE" then some "09"
  else if m = "OCTOBRE" then some "10"
  else if m = "NOVEMBRE" then some "11"
  else if m = "DÉCEMBRE" ∨ m = "DECEMBRE" then some "12"
  else none

/-- The character class `[A-ZÉÈÊÀÙ]` of the LCL header pattern. -/
def isMoisChar (c : Char) : Bool :=
  ('A' ≤ c && c ≤ 'Z') || c == 'É' || c == 'È' || c == 'Ê' || c == 'À' || c == 'Ù'

/-- Tail of the header pattern after the optional `[E']`:
`\s*([A-ZÉÈÊÀÙ]+)\s+(\d{4})`.  The three character classes (whitespace,
month letters, digits) are disjoint, so greedy runs need no backtracking;
`(\d{4})` takes the first four digits of the digit run. -/
def lclHdrCore (l : List Char) : Option (List Char × List Char) :=
  let r1 := l.dropWhile isPySpace
  let letters := r1.takeWhile isMoisChar
  if letters.length = 0 then none
  else
    let r2 := r1.drop letters.length
    let ws2 := r2.takeWhile isPySpace
    if ws2.length = 0 then none
    else
      let r3 := r2.drop ws2.length
      let ds := r3.takeWhile Char.isDigit
      if 4 ≤ ds.length then some (letters, ds.take 4) else none

/-- Continuation of the header pattern after the literal `…CARTE D`:
`[E']?\s*([A-ZÉÈÊÀÙ]+)\s+(\d{4})`.  The `?` is greedy: the branch that
consumes an `E` or apostrophe is preferred, falling back to the empty
branch when it fails. -/
def lclHdrTail : List Char → Option (List Char × List Char)
  | [] => none
  | c :: rest =>
    if c == 'E' || c == Char.ofNat 39 then
      match lclHdrCore rest with
      | some g => some g
      | none => lclHdrCore (c :: rest)
    else lclHdrCore (c :: rest)

/-- Attempt of `PAIEMENTS PAR CARTE D[E']?\s*([A-ZÉÈÊÀÙ]+)\s+(\d{4})` at the
head of the (already uppercased) list. -/
def lclHeaderAt (l : List Char) : Option (List Char × List Char) :=
  if leadsWith "PAIEMENTS PAR CARTE D".toList l then lclHdrTail (l.drop 21) else none

/-- Python `re.search` of the header pattern: leftmost match, groups
(month text, year digits). -/
def lclHeaderSearch : List Char → Option (List Char × List Char)
  | [] => none
  | c :: t =>
    match lclHeaderAt (c :: t) with
    | some g => some g
    | none => lclHeaderSearch t

/-- Step 1 of the LCL parser (lines 206–216): scan the first 30 lines for a
`PAIEMENTS PAR CARTE` header whose pattern matches, returning
(month text, year) of the first such line. -/
def lclFindHeader : List String → Option (String × String)
  | [] => none
  | l :: rest =>
    let u := pyUpper l
    if containsStr u "PAIEMENTS PAR CARTE" then
      match lclHeaderSearch u.toList with
      | some (m, y) => some (String.mk m, String.mk y)
      | none => lclFindHeader rest
    else lclFindHeader rest

/-- Step 2 of the LCL parser (lines 225–241): `start_idx` is one past the
*last* header line seen before the first `TOTAUX` line (if any); `end_idx`
is the index of the first `TOTAUX` line seen while `start_idx` is set,
defaulting to the number of lines. -/
def lclSectionScan (total : Nat) : List String → Nat → Option Nat → Option Nat × Nat
  | [], _, st => (st, total)
  | l :: rest, idx, st =>
    let u := pyUpper l
    let st' := if containsStr u "PAIEMENTS PAR CARTE" then some (idx + 1) else st
    if st'.isSome && containsStr u "TOTAUX" then (st', idx)
    else lclSectionScan total rest (idx + 1) st'

/-- The per-line stop keywords of the LCL parser's transaction loop. -/
def lclSkip : List String :=
  ["SOUS TOTAL", "LIBELLE", "VALEUR", "DEBIT", "CREDIT",
   "CARTE N°", "Page", "Crédit Lyonnais", "SIREN", "RCS", "ORIAS",
   "Indicatif", "Compte"]

/-- Attempt of `LE\s+(\d{1,2})/(\d{1,2})` at the head of the list: literal
`LE`, one or more whitespace, a day digit run of length 1 or 2 (a longer run
cannot match, since backtracking leaves a digit where `/` is required), `/`,
then a month group taking greedily up to two digits of a nonempty run. -/
def lclDateAt : List Char → Option (List Char × List Char)
  | 'L' :: 'E' :: rest =>
    let ws := rest.takeWhile isPySpace
    if ws.length = 0 then none
    else
      let r1 := rest.drop ws.length
      let d1 := r1.takeWhile Char.isDigit
      if d1.length = 1 ∨ d1.length = 2 then
        match r1.drop d1.length with
        | '/' :: r2 =>
          let d2 := r2.takeWhile Char.isDigit
          if 1 ≤ d2.length then some (d1, d2.take 2) else none
        | _ => none
      else none
  | _ => none

/-- Python `re.search(r'LE\s+(\d{1,2})/(\d{1,2})', line)`: leftmost match, groups
(day digits, month digits). -/
def lclDateSearch : List Char → Option (List Char × List Char)
  | [] => none
  | c :: t =>
    match lclDateAt (c :: t) with
    | some g => some g
    | none => lclDateSearch t

/-- Attempt of `(\d{1,}[,\.]\d{2})\s*$` at the head of the list: a maximal
digit run, a comma or dot, exactly two digits, then only whitespace up to
the end of the line.  Returns (integer digits, fraction digits). -/
def lclAmtEndAt (l : List Char) : Option (List Char × List Char) :=
  let ds := l.takeWhile Char.isDigit
  if 1 ≤ ds.length then
    match l.drop ds.length with
    | sep :: x :: y :: rest2 =>
      if (sep == ',' || sep == '.') && x.isDigit && y.isDigit && rest2.all isPySpace then
        some (ds, [x, y])
      else none
    | _ => none
  else none

/-- Python `re.search(r'(\d{1,}[,\.]\d{2})\s*$', line)`: leftmost match; returns
(match start, integer digits, fraction digits). -/
def lclAmtEndSearch : List Char → Nat → Option (Nat × List Char × List Char)
  | [], _ => none
  | c :: t, i =>
    match lclAmtEndAt (c :: t) with
    | some (a, b) => some (i, a, b)
    | none => lclAmtEndSearch t (i + 1)

/-- Python `re.match(r'^(\d{1,}[,\.]\d{2})', next_line)`: anchored at the start;
returns (integer digits, fraction digits). -/
def lclAmtStart (l : List Char) : Option (List Char × List Char) :=
  let ds := l.takeWhile Char.isDigit
  if 1 ≤ ds.length then
    match l.drop ds.length with
    | sep :: x :: y :: _ =>
      if (sep == ',' || sep == '.') && x.isDigit && y.isDigit then some (ds, [x, y]) else none
    | _ => none
  else none

/-- The year computation of lines 277–286.  The rollback branch is guarded by
`int(mois_num) == 12 and int(mois) == 1`, which is unreachable inside the
`int(mois) > int(mois_num)` branch (it would need `1 > 12`). -/
def lclYear (annee : String) (mois_num : Option String) (mois : String) : String :=
  match mois_num with
  | none => annee
  | some mn =>
    if strToNatD mois.toList < strToNatD mn.toList then annee
    else if strToNatD mn.toList < strToNatD mois.toList then
      if strToNatD mn.toList = 12 ∧ strToNatD mois.toList = 1 then
        toString ((strToNatD annee.toList : Int) - 1)
      else annee
    else annee

/-- Step 3 of the LCL parser (lines 253–348): the transaction loop over the
section lines.  When an amount is found at the end of the anchor line
(CASE 1), the label is the text before it; when the amount opens the next
line (CASE 2), the label is the whole stripped anchor line and the amount
line is skipped — but only when the transaction is actually appended
(`i += 1` sits inside the `len(libelle) >= 3` guard). -/
def lclLoop (annee : String) (mois_num : Option String) : List String → List Transaction
  | [] => []
  | line :: rest =>
    let l := pyStrip line
    if l = "" then lclLoop annee mois_num rest
    else if lclSkip.any (fun k => containsStr l k) then lclLoop annee mois_num rest
    else
      match lclDateSearch l.toList with
      | none => lclLoop annee mois_num rest
      | some (jd, md) =>
        let jour := zfill2 (String.mk jd)
        let mois := zfill2 (String.mk md)
        let dateFmt := jour ++ "/" ++ mois ++ "/" ++ lclYear annee mois_num mois
        match lclAmtEndSearch l.toList 0 with
        | some (mStart, ip, fp) =>
          let libelle := pyStrip (String.mk (l.toList.take mStart))
          if 3 ≤ libelle.length then
            ⟨dateFmt, libelle, -(ratOfParts ip fp)⟩ :: lclLoop annee mois_num rest
          else lclLoop annee mois_num rest
        | none =>
          match rest with
          | [] => []
          | next :: rest2 =>
            match lclAmtStart (pyStrip next).toList with
            | some (ip, fp) =>
              if 3 ≤ l.length then
                ⟨dateFmt, l, -(ratOfParts ip fp)⟩ :: lclLoop annee mois_num rest2
              else lclLoop annee mois_num (next :: rest2)
            | none => lclLoop annee mois_num (next :: rest2)

/-- Python `extract_lcl_transactions` (parsers.py lines 182–354). -/
def extract_lcl_transactions (lines : List String) : List Transaction :=
  let hdr := lclFindHeader (lines.take 30)
  let annee := match hdr with | some (_, y) => y | none => "2025"
  let mois_num := match hdr with | some (m, _) => moisDict m | none => none
  match lclSectionScan lines.length lines 0 none with
  | (none, _) => []
  | (some s, e) => lclLoop annee mois_num ((lines.take e).drop s)

/-! ## `extract_text_from_pdf` (parsers.py lines 56–78)

The pdfplumber backend is modelled by an oracle value of type
`Except String (List (Option String))`: `.ok pages` is a successful open
where `pages` lists each page's `page.extract_text()` result (`none` for
Python `None`), and `.error e` is any exception raised while opening or
reading the document (corrupt bytes, etc.). -/

/-- The page-concatenation loop shared by `extract_text_from_pdf` and
`extract_from_pdf`: falsy page text (`None` or `""`) is skipped, otherwise
the text plus a newline is appended. -/
def buildText (pages : List (Option String)) : String :=
  pages.foldl (fun acc p =>
    match p with
    | some t => if t = "" then acc else acc ++ t ++ "\n"
    | none => acc) ""

/-- The `fastapi.HTTPException` raised on a read failure. -/
structure HTTPExceptionV where
  status_code : Nat
  detail : String
deriving Repr, DecidableEq

/-- Python `extract_text_from_pdf` (parsers.py lines 56–78): returns the
concatenated page text, or raises `HTTPException(400, …)` when the
underlying read throws. -/
def extract_text_from_pdf (pdfO : Except String (List (Option String))) :
    Except HTTPExceptionV String :=
  match pdfO with
  | .ok pages => .ok (buildText pages)
  | .error e => .error ⟨400, "Erreur lors de la lecture du PDF: " ++ e⟩

/-! ## `is_scanned_pdf` (ocr_utils.py lines 19–72) -/

/-- The character class `[a-zA-ZÀ-ÿ]` of the word-token pattern.  (`À`–`ÿ`
is the literal codepoint range `0xC0`–`0xFF`, which also contains `×` and
`÷`.) -/
def isScanWordChar (c : Char) : Bool :=
  ('a' ≤ c && c ≤ 'z') || ('A' ≤ c && c ≤ 'Z') || (0xC0 ≤ c.toNat && c.toNat ≤ 0xFF)

/-- Python's `\w` restricted to the alphabet relevant here: the class above
plus digits and underscore.  (`×`/`÷` are treated as word characters; in
Python they are not, a difference visible only on texts containing those two
codepoints.) -/
def isScanTokChar (c : Char) : Bool := isScanWordChar c || c.isDigit || c == '_'

/-- Python `len(re.findall(r'\b[a-zA-ZÀ-ÿ]{3,}\b', text))`: word-boundary matches
are exactly the maximal `\w`-runs consisting entirely of class characters
and of length at least 3 (a run containing a digit or underscore offers no
internal boundary, so it can never contribute a match). -/
def countWords : List Char → Nat
  | [] => 0
  | c :: rest =>
    if isScanTokChar c then
      let run := c :: rest.takeWhile isScanTokChar
      let rest2 := rest.dropWhile isScanTokChar
      (if 3 ≤ run.length ∧ run.all isScanWordChar then 1 else 0) + countWords rest2
    else countWords rest
termination_by l => l.length
decreasing_by
  all_goals simp only [List.length_cons]
  · exact Nat.lt_succ_of_le (List.dropWhile_sublist _).length_le
  · exact Nat.lt_succ_self _

/-- The `common_bank_words` list. -/
def commonBankWords : List String :=
  ["BANQUE", "CREDIT", "COMPTE", "RELEVE", "TRANSACTION",
   "DEBIT", "CARTE", "PAIEMENT", "MONTANT", "DATE", "LCL"]

/-- Python `sum(1 for word in common_bank_words if word in text_upper)`. -/
def bankWordsFound (text : String) : Nat :=
  (commonBankWords.filter (fun w => containsStr (pyUpper text) w)).length

/-- Python `total_text`: concatenation of the first three pages' text (`None`
replaced by `""`), no separator. -/
def scanTotalText (pages : List (Option String)) : String :=
  ((pages.take 3).map (fun p => p.getD "")).foldl (fun a b => a ++ b) ""

/-- Python `is_scanned_pdf` (ocr_utils.py lines 19–72).  The pdfplumber backend is
the same oracle type as for `extract_text_from_pdf`; any exception makes the
detector default to `false` (native). -/
def is_scanned_pdf (pdfO : Except String (List (Option String))) : Bool :=
  match pdfO with
  | .error _ => false
  | .ok pages =>
    if pages.length = 0 then true
    else
      let total := scanTotalText pages
      if (pyStrip total).length < 200 then true
      else if countWords total.toList < 50 then true
      else if 2 ≤ bankWordsFound total then false
      else true

/-! ## `_normalize_date` (mistral_parser.py lines 204–241) -/

/-- Gregorian leap-year rule, as validated by `datetime.strptime`. -/
def isLeap (y : Nat) : Bool := y % 4 = 0 ∧ (y % 100 ≠ 0 ∨ y % 400 = 0)

/-- Days in a month, as validated by `datetime`. -/
def daysInMonth (m y : Nat) : Nat :=
  if m = 2 then (if isLeap y then 29 else 28)
  else if m = 4 ∨ m = 6 ∨ m = 9 ∨ m = 11 then 30
  else 31

/-- Calendar validity of `datetime.strptime(_, "%d/%m/%Y")` on a
`DD/MM/YYYY`-shaped string: month 1–12, day 1–last day of month, year at
least `datetime.MINYEAR = 1`. -/
def validDMY (d m y : Nat) : Bool :=
  1 ≤ y ∧ 1 ≤ m ∧ m ≤ 12 ∧ 1 ≤ d ∧ d ≤ daysInMonth m y

/-- Two-digit numeric value. -/
def dd2 (a b : Char) : Nat := 10 * (a.toNat - 48) + (b.toNat - 48)

/-- Four-digit numeric value. -/
def yyyy4 (a b c d : Char) : Nat :=
  1000 * (a.toNat - 48) + 100 * (b.toNat - 48) + 10 * (c.toNat - 48) + (d.toNat - 48)

/-- Python `_normalize_date` (mistral_parser.py lines 204–241), for string input
(the tier's claims only exercise string dates; `str()` is then the
identity).  The three accepted shapes are `\d{2}/\d{2}/\d{4}`,
`\d{8}` and `\d{2}-\d{2}-\d{4}`, each then validated by `strptime`. -/
def _normalize_date (s0 : String) : Option String :=
  match pyStripL s0.toList with
  | [a, b, '/', c, d, '/', e, f, g, h] =>
    if (a.isDigit && b.isDigit && c.isDigit && d.isDigit &&
        e.isDigit && f.isDigit && g.isDigit && h.isDigit) &&
       validDMY (dd2 a b) (dd2 c d) (yyyy4 e f g h) then
      some (String.mk [a, b, '/', c, d, '/', e, f, g, h])
    else none
  | [a, b, c, d, e, f, g, h] =>
    if (a.isDigit && b.isDigit && c.isDigit && d.isDigit &&
        e.isDigit && f.isDigit && g.isDigit && h.isDigit) &&
       validDMY (dd2 a b) (dd2 c d) (yyyy4 e f g h) then
      some (String.mk [a, b, '/', c, d, '/', e, f, g, h])
    else none
  | [a, b, '-', c, d, '-', e, f, g, h] =>
    if (a.isDigit && b.isDigit && c.isDigit && d.isDigit &&
        e.isDigit && f.isDigit && g.isDigit && h.isDigit) &&
       validDMY (dd2 a b) (dd2 c d) (yyyy4 e f g h) then
      some (String.mk [a, b, '/', c, d, '/', e, f, g, h])
    else none
  | _ => none

/-! ## `extract_with_mistral` validation loop (mistral_parser.py lines 130–190)

The transport half of the tier (API call, markdown stripping, bracket
extraction, `json.loads`) is abstracted: the model reply is taken to be the
already-decoded JSON array `transactions_raw`, each element a dict with the
optional keys `date`, `libelle`, `montant` holding a JSON value. -/

/-- A decoded JSON value, as far as this tier inspects it: a string, an
integer (Python `int` — its `str()` is the plain digit string), a float
(Python `float` — its `str()` always contains a `.` and so never matches a
date shape; modelled with an exact rational), or anything else. -/
inductive Jval where
  | jstr (s : String)
  | jint (n : ℤ)
  | jnum (q : ℚ)
  | jother
deriving Repr, DecidableEq

/-- Python `str()` as applied by `_normalize_date` to the `date` field. -/
def pyStrOfJval : Jval → String
  | .jstr s => s
  | .jint n => toString n
  | .jnum q => toString q ++ ".0"
  | .jother => "[jother]"

/-- Python `float(s)` for a plain decimal string: optional surrounding whitespace,
optional sign, digits with at most one dot and at least one digit.
(Exponent notation, `inf`/`nan` and underscore separators are not produced
by any input considered here.) -/
def pyFloatStr (s : String) : Option ℚ :=
  let l := pyStripL s.toList
  let p := match l with
    | '-' :: r => ((-1 : ℤ), r)
    | '+' :: r => ((1 : ℤ), r)
    | r => ((1 : ℤ), r)
  let ip := p.2.takeWhile Char.isDigit
  match p.2.drop ip.length with
  | [] => if ip.length = 0 then none else some (p.1 * (strToNatD ip : ℚ))
  | '.' :: fr =>
    if fr.all Char.isDigit ∧ 1 ≤ ip.length + fr.length then
      some (p.1 * mkRat ((10 ^ fr.length) * strToNatD ip + strToNatD fr) (10 ^ fr.length))
    else none
  | _ => none

/-- Python `float(t["montant"])`: numbers coerce, numeric strings parse, anything
else raises (`ValueError`/`TypeError`, caught by the loop). -/
def floatOfJval : Jval → Option ℚ
  | .jint n => some (n : ℚ)
  | .jnum q => some q
  | .jstr s => pyFloatStr s
  | .jother => none

/-- One raw record of the decoded array: each field is `none` when the key
is absent from the dict. -/
structure RawRecord where
  date : Option Jval
  libelle : Option Jval
  montant : Option Jval
deriving Repr, DecidableEq

/-- The per-record body of the validation loop (lines 133–177): all three
keys present, `_normalize_date` accepts the date, `float()` accepts the
amount, and `t["libelle"].strip()` succeeds (an `AttributeError` on a
non-string `libelle` is caught by the blanket `except`). -/
def validateRecord (r : RawRecord) : Option Transaction :=
  if r.date.isSome ∧ r.libelle.isSome ∧ r.montant.isSome then
    match _normalize_date (pyStrOfJval (r.date.getD .jother)) with
    | none => none
    | some dn =>
      match floatOfJval (r.montant.getD .jother) with
      | none => none
      | some q =>
        match r.libelle with
        | some (.jstr s) => some ⟨dn, pyStrip s, q⟩
        | _ => none
  else none

/-- The validation loop of `extract_with_mistral` (lines 130–190): each
record is validated independently and appended on success. -/
def mistralValidate : List RawRecord → List Transaction
  | [] => []
  | r :: rest =>
    match validateRecord r with
    | some tx => tx :: mistralValidate rest
    | none => mistralValidate rest

/-! ## `generate_excel` (parsers.py lines 506–542)

The xlsx byte serialization is abstracted: the artifact is modelled as the
list of rows written to the sheet (in order, with the reformatted dates).
A `None` return is `none`. -/

/-- Python `pd.Timestamp` bounds (1677-09-21 … 2262-04-11): dates outside them are
coerced to `NaT` by `errors='coerce'` and dropped. -/
def tsInBounds (d m y : Nat) : Bool :=
  (1678 ≤ y ∨ (y = 1677 ∧ (10 ≤ m ∨ (m = 9 ∧ 21 ≤ d)))) ∧
  (y ≤ 2261 ∨ (y = 2262 ∧ (m ≤ 3 ∨ (m = 4 ∧ d ≤ 11))))

/-- Python `pd.to_datetime(s, format='%d/%m/%Y', errors='coerce')` on one cell:
the whole string must be day (1–2 digits), `/`, month (1–2 digits), `/`,
year (exactly 4 digits), calendar-valid and within `Timestamp` range. -/
def pandasParseDate (s : String) : Option (Nat × Nat × Nat) :=
  match splitOnChar '/' s.toList with
  | [dt, mt, yt] =>
    if ((dt.length = 1 ∨ dt.length = 2) ∧ dt.all Char.isDigit) ∧
       ((mt.length = 1 ∨ mt.length = 2) ∧ mt.all Char.isDigit) ∧
       (yt.length = 4 ∧ yt.all Char.isDigit) then
      let d := strToNatD dt
      let m := strToNatD mt
      let y := strToNatD yt
      if validDMY d m y ∧ tsInBounds d m y then some (d, m, y) else none
    else none
  | _ => none

/-- Zero-padded two-digit rendering, as by `strftime('%d')`/`('%m')`. -/
def pad2 (n : Nat) : String := if n < 10 then "0" ++ toString n else toString n

/-- Python `dt.strftime('%d/%m/%Y')` (years in `Timestamp` range are four-digit). -/
def fmtDMY (d m y : Nat) : String := pad2 d ++ "/" ++ pad2 m ++ "/" ++ toString y

/-- One row's fate under date coercion + `dropna` + reformatting. -/
def rowNorm (t : Transaction) : Option Transaction :=
  (pandasParseDate t.date).map (fun v => ⟨fmtDMY v.1 v.2.1 v.2.2, t.libelle, t.montant⟩)

/-- Python `generate_excel` (parsers.py lines 506–542). -/
def generate_excel (transactions : List Transaction) : Option (List Transaction) :=
  if transactions = [] then none
  else
    let surviving := transactions.filterMap rowNorm
    if surviving = [] then none else some surviving

/-! ## `extract_from_pdf` (parsers.py lines 361–497)

Oracles: `pdfO` for the pdfplumber open/read (as before), `ocrO` for
`extract_text_from_scanned_pdf` (OCR), and `mistralO` for the whole
`extract_with_mistral` call — `.ok l` a returned list, `.error` any raised
exception (missing API key, network failure, …).  The regex parsers are
total functions and are embedded directly. -/

/-- The text produced by step 1: pdfplumber extraction, then an OCR retry
that replaces the text when it had fewer than 100 stripped characters and
the OCR call succeeds (an OCR exception keeps the pdfplumber text). -/
def finalText (pages : List (Option String)) (ocrO : Except String String) : String :=
  let t := buildText pages
  if (pyStrip t).length < 100 then
    match ocrO with
    | .ok t2 => t2
    | .error _ => t
  else t

/-- The quick bank hint of lines 430–437 (ordering differs from
`detect_bank_format`: LCL is tested first here). -/
def bankHint (text : String) : Option String :=
  let u := pyUpper text
  if containsStr u "LCL" || containsStr u "CREDIT LYONNAIS" then some "LCL"
  else if containsStr u "CREDIT AGRICOLE" then some "CREDIT_AGRICOLE"
  else if containsStr u "BANQUE POPULAIRE" then some "BANQUE_POPULAIRE"
  else none

/-- Python `detect_bank_format` (parsers.py lines 85–100). -/
def detect_bank_format (text : String) : String :=
  let u := pyUpper text
  if containsStr u "CREDIT AGRICOLE" then "CA"
  else if containsStr u "BANQUE POPULAIRE" then "BP"
  else if containsStr u "CREDIT LYONNAIS" || containsStr u "LCL" then "LCL"
  else if containsStr u "SOCIETE GENERALE" || containsStr u "SOCIÉTÉ GÉNÉRALE" then "SG"
  else if containsStr u "BNP" then "BNP"
  else "UNKNOWN"

/-- Python `[l.strip() for l in text.split('\n') if l.strip()]`. -/
def splitLinesClean (text : String) : List String :=
  (splitOnChar (Char.ofNat 10) text.toList).filterMap (fun l =>
    if pyStrip (String.mk l) = "" then none else some (pyStrip (String.mk l)))

/-- Step 3, the regex fallback tier (lines 465–478): bank detection and
parser dispatch; the pair is (transactions, bank tag) before the emptiness
check. -/
def regexTier (text : String) : List Transaction × String :=
  let bank := detect_bank_format text
  let lines := splitLinesClean text
  let tx :=
    if bank = "CA" then extract_ca_transactions lines
    else if bank = "BP" then extract_bp_transactions lines
    else if bank = "LCL" then extract_lcl_transactions lines
    else []
  (tx, bank)

/-- Python `extract_from_pdf` (parsers.py lines 361–497).  The whole body sits in a
`try/except` returning `([], "ERROR")`, so a pdfplumber failure yields that
pair; an OCR or Mistral exception is caught at its own tier. -/
def extract_from_pdf (pdfO : Except String (List (Option String)))
    (ocrO : Except String String)
    (mistralO : String → Option String → Except String (List Transaction)) :
    List Transaction × String :=
  match pdfO with
  | .error _ => ([], "ERROR")
  | .ok pages =>
    let text := finalText pages ocrO
    if text = "" ∨ (pyStrip text).length < 50 then ([], "ERROR")
    else
      let fallback :=
        let r := regexTier text
        if r.1 ≠ [] then r else ([], "ERROR")
      match mistralO text (bankHint text) with
      | .ok l => if l ≠ [] then (l, "MISTRAL_AI") else fallback
      | .error _ => fallback

/-- The union of the three date-shape regexes of `_normalize_date`
(`^\d{2}/\d{2}/\d{4}$`, `^\d{8}$`, `^\d{2}-\d{2}-\d{4}$`), as a predicate
on the stripped character list: used to state that every other input shape
is rejected. -/
def dateShapeAny : List Char → Bool
  | [a, b, '/', c, d, '/', e, f, g, h] =>
    a.isDigit && b.isDigit && c.isDigit && d.isDigit &&
    e.isDigit && f.isDigit && g.isDigit && h.isDigit
  | [a, b, c, d, e, f, g, h] =>
    a.isDigit && b.isDigit && c.isDigit && d.isDigit &&
    e.isDigit && f.isDigit && g.isDigit && h.isDigit
  | [a, b, '-', c, d, '-', e, f, g, h] =>
    a.isDigit && b.isDigit && c.isDigit && d.isDigit &&
    e.isDigit && f.isDigit && g.isDigit && h.isDigit
  | _ => false

/-! ## Helper lemmas -/

theorem isPySpace_eq_false_of_isDigit {c : Char} (h : c.isDigit = true) :
    isPySpace c = false := by
  cases hsp : isPySpace c with
  | false => rfl
  | true =>
    exfalso
    unfold isPySpace at hsp
    simp only [Bool.or_eq_true, beq_iff_eq] at hsp
    rcases hsp with ((((rfl | rfl) | rfl) | rfl) | rfl) | rfl <;> simp [Char.isDigit] at h

theorem pyStripL_date10 {a b c d e f g h : Char}
    (ha : isPySpace a = false) (hh : isPySpace h = false) (sep : Char) :
    pyStripL [a, b, sep, c, d, sep, e, f, g, h] = [a, b, sep, c, d, sep, e, f, g, h] := by
  unfold pyStripL
  simp [List.dropWhile, ha, hh]

/-- Every successful output of `_normalize_date` is a ten-character
digit-slash string whose guard (digit shape plus calendar validity) holds. -/
theorem normalize_date_shape {s t : String} (hn : _normalize_date s = some t) :
    ∃ a b c d e f g h : Char,
      t = String.mk [a, b, '/', c, d, '/', e, f, g, h] ∧
      ((a.isDigit && b.isDigit && c.isDigit && d.isDigit &&
        e.isDigit && f.isDigit && g.isDigit && h.isDigit) &&
       validDMY (dd2 a b) (dd2 c d) (yyyy4 e f g h)) = true := by
  unfold _normalize_date at hn
  split at hn <;>
    [skip; skip; skip; exact absurd hn (by simp)] <;>
    (split at hn
     · exact ⟨_, _, _, _, _, _, _, _, (Option.some_inj.mp hn).symm, by assumption⟩
     · exact absurd hn (by simp))


theorem ratOfParts_nonneg (ip fp : List Char) : 0 ≤ ratOfParts ip fp := by
  unfold ratOfParts
  rw [Rat.mkRat_eq_div]
  positivity

theorem caLine_inv {line : String} {t : Transaction} (h : caLine line = some t) :
    t.libelle ≠ "" ∧ t.montant ≤ 0 := by
  unfold caLine at h
  split at h
  · simp at h
  · dsimp only at h
    split at h
    · split at h
      · simp at h
      · next hne =>
        rcases Option.some_inj.mp h with rfl
        exact ⟨hne, neg_nonpos.mpr (by positivity)⟩
    · simp at h

theorem bpLine_inv {line : String} {t : Transaction} (h : bpLine line = some t) :
    t.montant ≤ 0 := by
  unfold bpLine at h
  split at h
  · simp at h
  · dsimp only at h
    split at h
    · rcases Option.some_inj.mp h with rfl
      exact neg_nonpos.mpr (by positivity)
    · simp at h

theorem extract_ca_inv {lines : List String} {t : Transaction}
    (h : t ∈ extract_ca_transactions lines) : t.libelle ≠ "" ∧ t.montant ≤ 0 := by
  unfold extract_ca_transactions at h
  rcases List.mem_filterMap.mp h with ⟨line, _, hline⟩
  exact caLine_inv hline

theorem extract_bp_inv {lines : List String} {t : Transaction}
    (h : t ∈ extract_bp_transactions lines) : t.montant ≤ 0 := by
  unfold extract_bp_transactions at h
  rcases List.mem_filterMap.mp h with ⟨line, _, hline⟩
  exact bpLine_inv hline

theorem lclLoop_inv (annee : String) (mn : Option String) :
    ∀ (n : Nat) (l : List String), l.length ≤ n →
      ∀ t ∈ lclLoop annee mn l, 3 ≤ t.libelle.length ∧ t.montant ≤ 0 := by
  intro n
  induction n with
  | zero =>
    intro l hl t ht
    rw [Nat.le_zero, List.length_eq_zero] at hl
    subst hl
    simp [lclLoop] at ht
  | succ n ih =>
    intro l hl t ht
    match l with
    | [] => simp [lclLoop] at ht
    | line :: rest =>
      have hr : rest.length ≤ n := by simp at hl; omega
      rw [lclLoop] at ht
      dsimp only at ht
      split at ht
      · exact ih rest hr t ht
      · split at ht
        · exact ih rest hr t ht
        · split at ht
          · exact ih rest hr t ht
          · split at ht
            · split at ht
              · next h3 =>
                rcases List.mem_cons.mp ht with rfl | ht2
                · exact ⟨h3, neg_nonpos.mpr (ratOfParts_nonneg _ _)⟩
                · exact ih rest hr t ht2
              · exact ih rest hr t ht
            · split at ht
              · simp at ht
              · next next rest2 =>
                split at ht
                · split at ht
                  · next h3 =>
                    rcases List.mem_cons.mp ht with rfl | ht2
                    · exact ⟨h3, neg_nonpos.mpr (ratOfParts_nonneg _ _)⟩
                    · refine ih rest2 ?_ t ht2
                      simp at hr ⊢; omega
                  · exact ih _ hr t ht
                · exact ih _ hr t ht

theorem extract_lcl_inv {lines : List String} {t : Transaction}
    (h : t ∈ extract_lcl_transactions lines) : 3 ≤ t.libelle.length ∧ t.montant ≤ 0 := by
  unfold extract_lcl_transactions at h
  dsimp only at h
  split at h
  · simp at h
  · exact lclLoop_inv _ _ _ _ (Nat.le_refl _) t h

/-! ## Claim theorems -/

/-- C1: the claim's year-rollback never happens.  The guard of the rollback
branch (`int(mois_num) == 12 and int(mois) == 1` under
`int(mois) > int(mois_num)`) is unsatisfiable, so the assigned year always
equals the statement year; in particular a statement declared
`PAIEMENTS PAR CARTE DE JANVIER 2025` containing the anchor `LE 28/12`
yields year `2025`, not `2024` as the claim requires. -/
theorem C1_lcl_year_never_rolled_back :
    (∀ (annee : String) (mn : Option String) (mois : String),
      lclYear annee mn mois = annee) ∧
    extract_lcl_transactions
      ["PAIEMENTS PAR CARTE DE JANVIER 2025",
       "MCDONALDS PARIS LE 28/12 12,50",
       "TOTAUX"] =
    [⟨"28/12/2025", "MCDONALDS PARIS LE 28/12", -mkRat 25 2⟩] := by
  constructor
  · intro annee mn mois
    unfold lclYear
    match mn with
    | none => rfl
    | some m =>
      dsimp only
      split
      · rfl
      · split
        · split
          · exfalso; omega
          · rfl
        · rfl
  · decide

/-- C2: the dot-date (Crédit Agricole) parser applied to
`"15.03 BOULANGERIE PARIS 12,50"` yields the claimed date and label, but the
amount is `-12`, not `-12.50`: `montant_match.group(1)` of
`-?(\d{1,5}),(\d{2})` captures only the digits before the comma, so the
cents are dropped. -/
theorem C2_ca_line_eval :
    extract_ca_transactions ["15.03 BOULANGERIE PARIS 12,50"] =
      [⟨"15/03/2025", "BOULANGERIE PARIS", -12⟩] := by
  decide

/-- C4 counterexample: the Banque Populaire parser emits a transaction whose
label is empty — the claim that every produced transaction has a non-empty
trimmed label is false. -/
theorem C4_counterexample_bp_empty_label :
    (extract_bp_transactions ["010125 12,50"]).map Transaction.libelle = [""] := by
  decide

/-- C4 (amended): only the LCL parser enforces the three-character label
minimum, and the CA parser drops candidates whose derived label is empty;
the BP parser (and the LLM extractor) enforce no label constraint. -/
theorem C4_label_guards :
    (∀ (lines : List String) (t : Transaction),
        t ∈ extract_lcl_transactions lines → 3 ≤ t.libelle.length) ∧
    (∀ (lines : List String) (t : Transaction),
        t ∈ extract_ca_transactions lines → t.libelle ≠ "") :=
  ⟨fun _ _ h => (extract_lcl_inv h).1, fun _ _ h => (extract_ca_inv h).1⟩

/-- C4 witness: the amended theorem applied to two concrete parsed lines. -/
theorem C4_label_guards_witness :
    3 ≤ (Transaction.mk "28/12/2025" "MCDONALDS PARIS LE 28/12" (-mkRat 25 2)).libelle.length ∧
    (Transaction.mk "15/03/2025" "BOULANGERIE PARIS" (-12)).libelle ≠ "" :=
  ⟨C4_label_guards.1
      ["PAIEMENTS PAR CARTE DE JANVIER 2025", "MCDONALDS PARIS LE 28/12 12,50", "TOTAUX"]
      _ (by decide),
   C4_label_guards.2 ["15.03 BOULANGERIE PARIS 12,50"] _ (by decide)⟩

/-- C10: every transaction emitted by any of the three regex layout parsers
has a non-positive amount — each parser's amount group captures unsigned
digits and is negated on append. -/
theorem C10_regex_amounts_nonpositive :
    (∀ (lines : List String) (t : Transaction),
        t ∈ extract_ca_transactions lines → t.montant ≤ 0) ∧
    (∀ (lines : List String) (t : Transaction),
        t ∈ extract_bp_transactions lines → t.montant ≤ 0) ∧
    (∀ (lines : List String) (t : Transaction),
        t ∈ extract_lcl_transactions lines → t.montant ≤ 0) :=
  ⟨fun _ _ h => (extract_ca_inv h).2, fun _ _ h => extract_bp_inv h,
   fun _ _ h => (extract_lcl_inv h).2⟩

/-- C10 witness: the theorem applied to one concrete line per parser. -/
theorem C10_regex_amounts_nonpositive_witness :
    (Transaction.mk "15/03/2025" "BOULANGERIE PARIS" (-12)).montant ≤ 0 ∧
    (Transaction.mk "01/01/2025" "" (-12)).montant ≤ 0 ∧
    (Transaction.mk "28/12/2025" "MCDONALDS PARIS LE 28/12" (-mkRat 25 2)).montant ≤ 0 :=
  ⟨C10_regex_amounts_nonpositive.1 ["15.03 BOULANGERIE PARIS 12,50"] _ (by decide),
   C10_regex_amounts_nonpositive.2.1 ["010125 12,50"] _ (by decide),
   C10_regex_amounts_nonpositive.2.2
     ["PAIEMENTS PAR CARTE DE JANVIER 2025", "MCDONALDS PARIS LE 28/12 12,50", "TOTAUX"]
     _ (by decide)⟩

/-- C3 counterexample: on a failing read (corrupt document) the Text
Extractor raises `HTTPException(400, …)` — it does not return the empty
string, so it is not exception-free. -/
theorem C3_counterexample_raises_http_400 :
    extract_text_from_pdf (.error "corrupt") =
      .error ⟨400, "Erreur lors de la lecture du PDF: corrupt"⟩ := by
  rfl

/-- C3 (amended): `extract_text_from_pdf` returns the page-concatenated text
whenever the underlying read succeeds, and raises an `HTTPException` with
status 400 (rather than returning `""`) whenever it fails. -/
theorem C3_text_extractor_behavior :
    (∀ pages, extract_text_from_pdf (.ok pages) = .ok (buildText pages)) ∧
    (∀ e, extract_text_from_pdf (.error e) =
      .error ⟨400, "Erreur lors de la lecture du PDF: " ++ e⟩) :=
  ⟨fun _ => rfl, fun _ => rfl⟩

/-- C5: the Scan Detector classifies a successfully read document as scanned
iff the first three pages' combined text is short (< 200 stripped
characters), or has fewer than 50 alphabetic tokens of three-plus letters,
or mentions fewer than 2 of the fixed bank keywords; and it returns
NOT scanned on any internal extraction error. -/
theorem C5_scan_detector_iff :
    (∀ pages, (is_scanned_pdf (.ok pages) = true ↔
      ((pyStrip (scanTotalText pages)).length < 200 ∨
       countWords (scanTotalText pages).toList < 50 ∨
       bankWordsFound (scanTotalText pages) < 2))) ∧
    (∀ e, is_scanned_pdf (.error e) = false) := by
  constructor
  · intro pages
    match pages with
    | [] => decide
    | p :: ps =>
      unfold is_scanned_pdf
      dsimp only
      rw [if_neg (by simp)]
      by_cases h1 : (pyStrip (scanTotalText (p :: ps))).length < 200
      · rw [if_pos h1]
        exact iff_of_true rfl (Or.inl h1)
      · rw [if_neg h1]
        by_cases h2 : countWords (scanTotalText (p :: ps)).toList < 50
        · rw [if_pos h2]
          exact iff_of_true rfl (Or.inr (Or.inl h2))
        · rw [if_neg h2]
          by_cases h3 : 2 ≤ bankWordsFound (scanTotalText (p :: ps))
          · rw [if_pos h3]
            refine iff_of_false (by simp) ?_
            rintro (hA | hB | hC)
            · exact h1 hA
            · exact h2 hB
            · omega
          · rw [if_neg h3]
            exact iff_of_true rfl (Or.inr (Or.inr (by omega)))
  · intro e
    rfl

/-- C7: date normalization accepts exactly the three literal formats
`DD/MM/YYYY`, `DDMMYYYY`, `DD-MM-YYYY` (any other shape is rejected),
validates calendar correctness, is format-equivalent (the three example
spellings all normalize to `30/10/2025`, `31/13/2025` is rejected) and is
idempotent on its outputs. -/
theorem C7_normalize_date_formats :
    _normalize_date "30102025" = some "30/10/2025" ∧
    _normalize_date "30-10-2025" = some "30/10/2025" ∧
    _normalize_date "30/10/2025" = some "30/10/2025" ∧
    _normalize_date "31/13/2025" = none ∧
    (∀ s : String, dateShapeAny (pyStripL s.toList) = false → _normalize_date s = none) ∧
    (∀ s t : String, _normalize_date s = some t → _normalize_date t = some t) := by
  refine ⟨by decide, by decide, by decide, by decide, ?_, ?_⟩
  · intro s hs
    unfold _normalize_date
    split
    · rename_i a b c d e f g h heq
      rw [heq] at hs
      simp only [dateShapeAny] at hs
      simp [hs]
    · rename_i a b c d e f g h heq
      rw [heq] at hs
      simp only [dateShapeAny] at hs
      simp [hs]
    · rename_i a b c d e f g h heq
      rw [heq] at hs
      simp only [dateShapeAny] at hs
      simp [hs]
    · rfl
  · intro s t h
    obtain ⟨a, b, c, d, e, f, g, h2, rfl, hg⟩ := normalize_date_shape h
    have ha : isPySpace a = false := isPySpace_eq_false_of_isDigit (by
      have hd := hg; simp only [Bool.and_eq_true] at hd; tauto)
    have hh : isPySpace h2 = false := isPySpace_eq_false_of_isDigit (by
      have hd := hg; simp only [Bool.and_eq_true] at hd; tauto)
    unfold _normalize_date
    have hstr : (String.mk [a, b, '/', c, d, '/', e, f, g, h2]).toList
        = [a, b, '/', c, d, '/', e, f, g, h2] := rfl
    rw [hstr, pyStripL_date10 ha hh '/']
    split
    · rename_i a' b' c' d' e' f' g' h' heq
      injection heq with e1 heq; injection heq with e2 heq; injection heq with _ heq
      injection heq with e3 heq; injection heq with e4 heq; injection heq with _ heq
      injection heq with e5 heq; injection heq with e6 heq; injection heq with e7 heq
      injection heq with e8 _
      subst e1; subst e2; subst e3; subst e4; subst e5; subst e6; subst e7; subst e8
      rw [if_pos hg]
    · rename_i heq
      exact absurd heq (by simp)
    · rename_i a' b' c' d' e' f' g' h' heq
      exact absurd heq (by simp)
    · rename_i hno1 hno2 hno3
      exact absurd rfl (hno1 a b c d e f g h2)

/-- C7 witness: rejection applied to a shapeless string and idempotence
applied to the normalized form of `"30102025"`. -/
theorem C7_normalize_date_formats_witness :
    _normalize_date "not a date" = none ∧
    _normalize_date "30/10/2025" = some "30/10/2025" :=
  ⟨C7_normalize_date_formats.2.2.2.2.1 "not a date" (by decide),
   C7_normalize_date_formats.2.2.2.2.2 "30102025" "30/10/2025" (by decide)⟩

theorem validateRecord_none_of_no_montant {r : RawRecord} (h : r.montant = none) :
    validateRecord r = none := by
  unfold validateRecord
  rw [if_neg (by simp [h])]

/-- C6: LLM-extractor record validation is independent per item: the example
reply becomes exactly its one Transaction; a record with no `montant` is
dropped without affecting the records around it; and the tier's output is
empty exactly when no record survives validation. -/
theorem C6_llm_record_validation :
    mistralValidate
        [⟨some (.jstr "30/10/2025"), some (.jstr "CERTAS"), some (.jnum (-mkRat 1662 100))⟩] =
      [⟨"30/10/2025", "CERTAS", -mkRat 1662 100⟩] ∧
    (∀ (pre post : List RawRecord) (r : RawRecord), r.montant = none →
      mistralValidate (pre ++ r :: post) = mistralValidate (pre ++ post)) ∧
    (∀ rs : List RawRecord, mistralValidate rs = [] ↔ ∀ r ∈ rs, validateRecord r = none) := by
  refine ⟨by decide, ?_, ?_⟩
  · intro pre post r h
    induction pre with
    | nil =>
      simp only [List.nil_append, mistralValidate, validateRecord_none_of_no_montant h]
    | cons p ps ih =>
      cases hv : validateRecord p with
      | some tx => simp only [List.cons_append, mistralValidate, hv, List.append_eq, ih]
      | none => simp only [List.cons_append, mistralValidate, hv, List.append_eq, ih]
  · intro rs
    induction rs with
    | nil => simp [mistralValidate]
    | cons p ps ih =>
      cases hv : validateRecord p with
      | some tx => simp [mistralValidate, hv]
      | none => simp [mistralValidate, hv, ih]

/-- C6 witness: dropping a `montant`-less record from a two-record batch
leaves exactly the surviving record's Transaction. -/
theorem C6_llm_record_validation_witness :
    mistralValidate
        [⟨some (.jstr "30/10/2025"), some (.jstr "CERTAS"), some (.jnum (-mkRat 1662 100))⟩,
         ⟨some (.jstr "31/10/2025"), some (.jstr "NO AMOUNT"), none⟩] =
      mistralValidate
        [⟨some (.jstr "30/10/2025"), some (.jstr "CERTAS"), some (.jnum (-mkRat 1662 100))⟩] :=
  C6_llm_record_validation.2.1
    [⟨some (.jstr "30/10/2025"), some (.jstr "CERTAS"), some (.jnum (-mkRat 1662 100))⟩] []
    ⟨some (.jstr "31/10/2025"), some (.jstr "NO AMOUNT"), none⟩ rfl

/-- C9: the Output Normalizer returns the failure signal (`None`) exactly
when the input is empty or every row's date fails `DD/MM/YYYY` parsing;
otherwise the artifact holds exactly the surviving rows (in order, dates
reformatted); one valid-date row plus one invalid-date row yield an artifact
with exactly the one surviving row. -/
theorem C9_output_normalizer :
    (∀ txs : List Transaction,
        (generate_excel txs = none ↔ ∀ t ∈ txs, rowNorm t = none)) ∧
    (∀ (txs rows : List Transaction),
        generate_excel txs = some rows → rows = txs.filterMap rowNorm) ∧
    generate_excel [⟨"30/10/2025", "OK ROW", -1⟩, ⟨"31/13/2025", "BAD DATE", -2⟩] =
      some [⟨"30/10/2025", "OK ROW", -1⟩] := by
  refine ⟨?_, ?_, by decide⟩
  · intro txs
    unfold generate_excel
    split
    · next he => subst he; simp
    · next hne =>
      dsimp only
      split
      · next hs =>
        rw [List.filterMap_eq_nil_iff] at hs
        exact iff_of_true rfl hs
      · next hs =>
        refine iff_of_false (by simp) fun hall => hs ?_
        exact List.filterMap_eq_nil_iff.mpr hall
  · intro txs rows h
    unfold generate_excel at h
    split at h
    · simp at h
    · dsimp only at h
      split at h
      · simp at h
      · exact (Option.some_inj.mp h).symm

/-- C9 witness: the surviving-rows equation applied to the one-valid-one-
invalid batch. -/
theorem C9_output_normalizer_witness :
    [(⟨"30/10/2025", "OK ROW", -1⟩ : Transaction)] =
      List.filterMap rowNorm
        [⟨"30/10/2025", "OK ROW", (-1 : ℚ)⟩, ⟨"31/13/2025", "BAD DATE", -2⟩] :=
  C9_output_normalizer.2.1 _ _ (by decide)

/-- C8: the Pipeline Orchestrator always returns a (transactions, tag) pair
(a pdfplumber exception yields `([], "ERROR")`); when the text survives the
length gate and the LLM tier returns a non-empty list, the pipeline commits
to it with tag `MISTRAL_AI` and the regex tier is never consulted; when the
LLM tier throws or returns empty, the result is the regex tier's output when
non-empty and otherwise `([], "ERROR")`. -/
theorem C8_orchestrator_fallback :
    (∀ (e : String) (ocrO : Except String String)
        (mistralO : String → Option String → Except String (List Transaction)),
        extract_from_pdf (.error e) ocrO mistralO = ([], "ERROR")) ∧
    (∀ (pages : List (Option String)) (ocrO : Except String String)
        (mistralO : String → Option String → Except String (List Transaction))
        (l : List Transaction),
        (finalText pages ocrO ≠ "" ∧ ¬(pyStrip (finalText pages ocrO)).length < 50) →
        mistralO (finalText pages ocrO) (bankHint (finalText pages ocrO)) = .ok l →
        l ≠ [] →
        extract_from_pdf (.ok pages) ocrO mistralO = (l, "MISTRAL_AI")) ∧
    (∀ (pages : List (Option String)) (ocrO : Except String String)
        (mistralO : String → Option String → Except String (List Transaction))
        (e : String),
        (finalText pages ocrO ≠ "" ∧ ¬(pyStrip (finalText pages ocrO)).length < 50) →
        mistralO (finalText pages ocrO) (bankHint (finalText pages ocrO)) = .error e →
        extract_from_pdf (.ok pages) ocrO mistralO =
          (if (regexTier (finalText pages ocrO)).1 ≠ []
           then regexTier (finalText pages ocrO) else ([], "ERROR"))) ∧
    (∀ (pages : List (Option String)) (ocrO : Except String String)
        (mistralO : String → Option String → Except String (List Transaction)),
        (finalText pages ocrO ≠ "" ∧ ¬(pyStrip (finalText pages ocrO)).length < 50) →
        mistralO (finalText pages ocrO) (bankHint (finalText pages ocrO)) = .ok [] →
        extract_from_pdf (.ok pages) ocrO mistralO =
          (if (regexTier (finalText pages ocrO)).1 ≠ []
           then regexTier (finalText pages ocrO) else ([], "ERROR"))) := by
  refine ⟨fun _ _ _ => rfl, ?_, ?_, ?_⟩
  · intro pages ocrO mistralO l hok hm hl
    unfold extract_from_pdf
    dsimp only
    rw [if_neg (not_or.mpr ⟨hok.1, hok.2⟩), hm]
    dsimp only
    rw [if_pos hl]
  · intro pages ocrO mistralO e hok hm
    unfold extract_from_pdf
    dsimp only
    rw [if_neg (not_or.mpr ⟨hok.1, hok.2⟩), hm]
  · intro pages ocrO mistralO hok hm
    unfold extract_from_pdf
    dsimp only
    rw [if_neg (not_or.mpr ⟨hok.1, hok.2⟩), hm]
    dsimp only
    rw [if_neg (by simp)]

/-- C8 witness: a document whose text passes the gate and an LLM oracle
returning one transaction commit to the `MISTRAL_AI` tier. -/
theorem C8_orchestrator_fallback_witness :
    extract_from_pdf
        (.ok [some "RELEVE DE COMPTE LCL 0123456789 0123456789 0123456789 0123456789 0123456789 0123456789 0123456789 0123456789"])
        (.error "ocr unavailable")
        (fun _ _ => .ok [⟨"30/10/2025", "CERTAS", -mkRat 1662 100⟩]) =
      ([⟨"30/10/2025", "CERTAS", -mkRat 1662 100⟩], "MISTRAL_AI") :=
  C8_orchestrator_fallback.2.1
    [some "RELEVE DE COMPTE LCL 0123456789 0123456789 0123456789 0123456789 0123456789 0123456789 0123456789 0123456789"]
    (.error "ocr unavailable")
    (fun _ _ => .ok [⟨"30/10/2025", "CERTAS", -mkRat 1662 100⟩])
    [⟨"30/10/2025", "CERTAS", -mkRat 1662 100⟩]
    ⟨by decide, by decide⟩ rfl (by decide)
